import Mathlib

/-!
Verification of the adaptive performance governance engine of the
Perimsx/newtools repository (PerformanceMonitor in
src/assets/js/performance-monitor.js and AnimationOptimizer in
src/assets/js/, here shallowly embedded).

The JavaScript is translated function by function: JS numbers used as
integers become Nat/Int, durations and memory sizes (which may be
fractional) become Rat, the JS `Set` of active animation ids becomes a
`Finset Nat`, and `x || d` (defaulting on absent or zero values) is made
explicit via `Option`.
-/

/-- Device capability tier, the value of performanceData.deviceTier
(strings low / medium / high in the source). -/
inductive Tier where
  | low
  | medium
  | high
deriving DecidableEq, Repr

/-- The degradation policy record config.degradation: four boolean
toggles plus the concurrency limit. -/
structure DegradationConfig where
  disableComplexAnimations : Bool
  reduceAnimationDuration : Bool
  disableParallax : Bool
  reduceBlurEffects : Bool
  limitConcurrentAnimations : Nat
deriving DecidableEq, Repr

/-- The initial value of config.degradation (all toggles false,
limitConcurrentAnimations = 3). -/
def initConfig : DegradationConfig :=
  ⟨false, false, false, false, 3⟩

/-- JS `x || d` on an optional number: absent or zero falls back to d.
Used for navigator.hardwareConcurrency || 2. -/
def orDefaultNat (x : Option Nat) (d : Nat) : Nat :=
  match x with
  | none => d
  | some n => if n = 0 then d else n

/-- JS `x || d` on an optional rational: absent or zero falls back to d.
Used for navigator.deviceMemory || 4. -/
def orDefaultRat (x : Option ℚ) (d : ℚ) : ℚ :=
  match x with
  | none => d
  | some q => if q = 0 then d else q

/-- applyDegradationStrategy, as a pure function of the device tier and
the reduced-motion flag: the source first resets config.degradation to
its relaxed defaults, then overwrites fields branch by branch.  Note the
reducedMotion branch of the source sets disableComplexAnimations,
disableParallax and reduceBlurEffects but not reduceAnimationDuration. -/
def applyDegradationStrategy (deviceTier : Tier) (isReducedMotion : Bool) :
    DegradationConfig :=
  let config := initConfig
  if isReducedMotion then
    { config with
        disableComplexAnimations := true
        disableParallax := true
        reduceBlurEffects := true
        limitConcurrentAnimations := 1 }
  else
    match deviceTier with
    | Tier.low =>
        { config with
            disableComplexAnimations := true
            reduceAnimationDuration := true
            disableParallax := true
            reduceBlurEffects := true
            limitConcurrentAnimations := 1 }
    | Tier.medium =>
        { config with
            reduceAnimationDuration := true
            disableParallax := true
            limitConcurrentAnimations := 2 }
    | Tier.high =>
        { config with limitConcurrentAnimations := 5 }

/-- The tier assigned by detectDevicePerformance from the benchmark
duration alone (before the hardware-hint adjustment). -/
def benchmarkTier (duration : ℚ) : Tier :=
  if duration > 100 then Tier.low
  else if duration > 50 then Tier.medium
  else Tier.high

/-- detectDevicePerformance: classify by benchmark duration, then demote
a high result to medium when hardwareConcurrency <= 2 or deviceMemory <= 2,
with absent hints defaulting through `|| 2` and `|| 4`. -/
def detectDevicePerformance (duration : ℚ) (hardwareConcurrencyHint : Option Nat)
    (deviceMemoryHint : Option ℚ) : Tier :=
  let tier := benchmarkTier duration
  let hardwareConcurrency := orDefaultNat hardwareConcurrencyHint 2
  let deviceMemory := orDefaultRat deviceMemoryHint 4
  if hardwareConcurrency ≤ 2 ∨ deviceMemory ≤ 2 then
    if tier = Tier.high then Tier.medium else tier
  else tier

/-- detectLowEndDevice: low-end when cores <= 2, memory <= 2, or the
connection's effective type is slow-2g or 2g (connection optional). -/
def detectLowEndDevice (hardwareConcurrencyHint : Option Nat)
    (deviceMemoryHint : Option ℚ) (effectiveType : Option String) : Bool :=
  if orDefaultNat hardwareConcurrencyHint 2 ≤ 2 then true
  else if orDefaultRat deviceMemoryHint 4 ≤ 2 then true
  else if effectiveType = some "slow-2g" ∨ effectiveType = some "2g" then true
  else false

/-- getAverageFPS: 60 on an empty history, otherwise
Math.round(sum / length) where sum is reduce((a,b) => a+b, 0). -/
def getAverageFPS (history : List Nat) : Nat :=
  if history.length = 0 then 60
  else
    let sum : Nat := history.foldl (fun a b => a + b) 0
    (round ((sum : ℚ) / (history.length : ℚ))).toNat

/-- checkPerformanceDegradation as a function of the fps history and the
current tier, returning the new tier and whether applyDegradationStrategy
was invoked (it is invoked exactly inside the three inner tier-change
branches of the source). -/
def checkPerformanceDegradation (history : List Nat) (tier : Tier) :
    Tier × Bool :=
  let avgFPS := getAverageFPS history
  if avgFPS < 30 ∧ 5 ≤ history.length then
    if tier ≠ Tier.low then (Tier.low, true) else (tier, false)
  else if avgFPS < 50 ∧ 5 ≤ history.length then
    if tier = Tier.high then (Tier.medium, true) else (tier, false)
  else if 58 ≤ avgFPS ∧ 5 ≤ history.length then
    if tier ≠ Tier.high then (Tier.high, true) else (tier, false)
  else (tier, false)

/-- One fps-history append from startFPSMonitoring: push the sample,
then shift the oldest entry when more than 30 are retained. -/
def pushFPSSample (history : List Nat) (fps : Nat) : List Nat :=
  let pushed := history ++ [fps]
  if 30 < pushed.length then pushed.tail else pushed

/-- A long-task record {duration, startTime, timestamp}. -/
structure LongTaskRecord where
  duration : ℚ
  startTime : ℚ
  timestamp : ℚ
deriving DecidableEq, Repr

/-- One delivered PerformanceObserver entry in startLongTaskMonitoring:
recorded only when its duration exceeds the 50 ms threshold; then the
history is capped at 10 by shifting the oldest record. -/
def recordLongTask (longTasks : List LongTaskRecord) (entry : LongTaskRecord) :
    List LongTaskRecord :=
  if entry.duration > 50 then
    let pushed := longTasks ++ [entry]
    if 10 < pushed.length then pushed.tail else pushed
  else longTasks

/-- The monitor state the admission controller touches: the active
animation id set and the degradation policy currently in force. -/
structure MonitorState where
  active : Finset Nat
  degradation : DegradationConfig
deriving DecidableEq

/-- The monitor's initial state: no active animations, config.degradation
at its declared initial value. -/
def initState : MonitorState :=
  ⟨∅, initConfig⟩

/-- registerAnimation: refuse (returning false, state unchanged) when
activeAnimations.size >= limitConcurrentAnimations, otherwise add the id
to the set and return true. -/
def registerAnimation (s : MonitorState) (animationId : Nat) :
    Bool × MonitorState :=
  if s.degradation.limitConcurrentAnimations ≤ s.active.card then (false, s)
  else (true, { s with active := insert animationId s.active })

/-- unregisterAnimation: delete the id from the active set. -/
def unregisterAnimation (s : MonitorState) (animationId : Nat) : MonitorState :=
  { s with active := s.active.erase animationId }

/-- A policy recompute (applyDegradationStrategy run against the current
tier and reduced-motion flag) replaces config.degradation wholesale and
does not touch the active set. -/
def applyPolicy (s : MonitorState) (tier : Tier) (isReducedMotion : Bool) :
    MonitorState :=
  { s with degradation := applyDegradationStrategy tier isReducedMotion }

/-- pauseMonitoring clears the whole active set. -/
def pauseMonitoring (s : MonitorState) : MonitorState :=
  { s with active := ∅ }

/-- The admission-controller steps that do not change the policy:
registerAnimation, unregisterAnimation, pauseMonitoring. -/
inductive AdmissionStep : MonitorState → MonitorState → Prop where
  | register (s : MonitorState) (animationId : Nat) :
      AdmissionStep s (registerAnimation s animationId).2
  | unregister (s : MonitorState) (animationId : Nat) :
      AdmissionStep s (unregisterAnimation s animationId)
  | pause (s : MonitorState) :
      AdmissionStep s (pauseMonitoring s)

/-- A step of the whole monitor: an admission step or a policy recompute. -/
inductive Step : MonitorState → MonitorState → Prop where
  | admission {s s' : MonitorState} : AdmissionStep s s' → Step s s'
  | policy (s : MonitorState) (tier : Tier) (isReducedMotion : Bool) :
      Step s (applyPolicy s tier isReducedMotion)

/-- Reachable monitor states: those produced from the initial state by a
finite sequence of steps. -/
def Reachable (s : MonitorState) : Prop :=
  Relation.ReflTransGen Step initState s

/-- shouldAnimate: false when reducedMotion is set or the tier is low. -/
def shouldAnimate (tier : Tier) (isReducedMotion : Bool) : Bool :=
  if isReducedMotion then false
  else if tier = Tier.low then false
  else true

/-- The synchronous prefix of AnimationOptimizer.animate: the list of
progress values delivered to the callback before returning, whether the
returned cancel handle is a no-op, and the monitor state afterwards.
When shouldAnimate fails, callback(1) is invoked once and a no-op cancel
is returned; otherwise with a ticket id the call registers it and, on
refusal, likewise invokes callback(1) once with a no-op cancel; on
success (or without a ticket) the requestAnimationFrame loop is armed and
nothing is delivered synchronously. -/
def animate (tier : Tier) (isReducedMotion : Bool) (s : MonitorState)
    (ticket : Option Nat) : List ℚ × Bool × MonitorState :=
  if shouldAnimate tier isReducedMotion = false then ([1], true, s)
  else
    match ticket with
    | some animationId =>
        let r := registerAnimation s animationId
        if r.1 = false then ([1], true, r.2)
        else ([], false, r.2)
    | none => ([], false, s)

/-- Sum written as the source's reduce((a,b) => a+b, 0) agrees with
List.sum. -/
theorem foldl_add_eq_sum (l : List Nat) (a : Nat) :
    l.foldl (fun x y => x + y) a = a + l.sum := by
  induction l generalizing a with
  | nil => simp
  | cons x xs ih => simp [List.foldl_cons, ih, List.sum_cons]; omega

/-- C1 counterexample: with reducedMotion set, applyDegradationStrategy
does not produce the policy with all four toggles true and limit 1 — the
source's reducedMotion branch leaves reduceAnimationDuration false. -/
theorem reducedMotion_policy_claim_counterexample :
    applyDegradationStrategy Tier.high true ≠
      DegradationConfig.mk true true true true 1 := by
  decide

/-- C1 (amended): with reducedMotion set, a policy evaluation produces,
irrespective of the tier, the policy with disableComplexAnimations,
disableParallax and reduceBlurEffects true, reduceAnimationDuration
false, and limitConcurrentAnimations = 1. -/
theorem reducedMotion_policy_amended (tier : Tier) :
    applyDegradationStrategy tier true =
      DegradationConfig.mk true false true true 1 := by
  cases tier <;> rfl

/-- C2 counterexample: with both hardware hints absent, a high benchmark
result (duration 10 ms) does not stay high: the default core count of 2
satisfies the demotion condition and the tier becomes medium. -/
theorem detect_defaults_counterexample :
    detectDevicePerformance 10 none none = Tier.medium ∧
    detectDevicePerformance 10 none none ≠ Tier.high := by
  constructor <;> decide

/-- C2 (amended): absent hardware hints default to 2 logical cores and
4 GB device memory (behaving exactly like explicitly supplied values 2
and 4), and because the default core count 2 satisfies the demotion
condition (cores <= 2), a high benchmark result with both hints absent is
demoted to medium; likewise detectLowEndDevice judges a host with all
hints absent low-end. -/
theorem detect_defaults_amended :
    (∀ d : ℚ, detectDevicePerformance d none none =
        detectDevicePerformance d (some 2) (some 4)) ∧
    (∀ d : ℚ, d ≤ 50 → detectDevicePerformance d none none = Tier.medium) ∧
    detectLowEndDevice none none none = true := by
  refine ⟨fun d => rfl, fun d hd => ?_, by decide⟩
  have h1 : ¬ (d > 100) := by linarith
  have h2 : ¬ (d > 50) := by linarith
  simp [detectDevicePerformance, benchmarkTier, orDefaultNat, orDefaultRat, h1, h2]

/-- C2 amended witness: the demotion branch at the concrete duration 10
with both hints absent. -/
theorem detect_defaults_amended_witness :
    (10 : ℚ) ≤ 50 ∧ detectDevicePerformance 10 none none = Tier.medium :=
  ⟨by norm_num, detect_defaults_amended.2.1 10 (by norm_num)⟩

/-- C4: the benchmark duration classifies d>100 to low, 50<d<=100 to
medium, d<=50 to high, and detectDevicePerformance demotes exactly a high
benchmark result to medium when resolved cores <= 2 or resolved memory
<= 2, never demoting medium or low further. -/
theorem benchmark_tier_classification (d : ℚ) (hc : Option Nat) (dm : Option ℚ) :
    (100 < d → benchmarkTier d = Tier.low) ∧
    (50 < d → d ≤ 100 → benchmarkTier d = Tier.medium) ∧
    (d ≤ 50 → benchmarkTier d = Tier.high) ∧
    detectDevicePerformance d hc dm =
      (if benchmarkTier d = Tier.high ∧
          (orDefaultNat hc 2 ≤ 2 ∨ orDefaultRat dm 4 ≤ 2)
       then Tier.medium else benchmarkTier d) := by
  refine ⟨fun h => ?_, fun h1 h2 => ?_, fun h => ?_, ?_⟩
  · simp [benchmarkTier, h]
  · have h3 : ¬ (d > 100) := by linarith
    simp [benchmarkTier, h3, h1]
  · have h1 : ¬ (d > 100) := by linarith
    have h2 : ¬ (d > 50) := by linarith
    simp [benchmarkTier, h1, h2]
  · by_cases hcond : orDefaultNat hc 2 ≤ 2 ∨ orDefaultRat dm 4 ≤ 2
    · by_cases ht : benchmarkTier d = Tier.high <;>
        simp [detectDevicePerformance, hcond, ht]
    · simp [detectDevicePerformance, hcond]

/-- C4 witness: concrete evaluations of the classification at durations
120, 80 and 10, the last with a 2-core hint forcing the demotion. -/
theorem benchmark_tier_classification_witness :
    (100 : ℚ) < 120 ∧ benchmarkTier 120 = Tier.low ∧
    (50 : ℚ) < 80 ∧ (80 : ℚ) ≤ 100 ∧ benchmarkTier 80 = Tier.medium ∧
    (10 : ℚ) ≤ 50 ∧ benchmarkTier 10 = Tier.high ∧
    detectDevicePerformance 10 (some 2) (some 8) = Tier.medium := by
  refine ⟨by norm_num, (benchmark_tier_classification 120 none none).1 (by norm_num),
    by norm_num, by norm_num,
    (benchmark_tier_classification 80 none none).2.1 (by norm_num) (by norm_num),
    by norm_num, (benchmark_tier_classification 10 none none).2.2.1 (by norm_num), ?_⟩
  have h := (benchmark_tier_classification 10 (some 2) (some 8)).2.2.2
  rw [h]
  decide

/-- C8: getAverageFPS returns 60 (and in particular not 0) on the empty
history, and on a nonempty history returns the rounded arithmetic mean of
the retained samples. -/
theorem averageFPS_spec :
    getAverageFPS [] = 60 ∧ getAverageFPS [] ≠ 0 ∧
    ∀ history : List Nat, history ≠ [] →
      (getAverageFPS history : ℤ) =
        round ((history.sum : ℚ) / (history.length : ℚ)) := by
  refine ⟨rfl, by decide, fun history hne => ?_⟩
  have hlen : history.length ≠ 0 := by
    simpa [List.length_eq_zero] using hne
  have hsum : history.foldl (fun a b => a + b) 0 = history.sum := by
    simpa using foldl_add_eq_sum history 0
  have hnn : (0 : ℚ) ≤ (history.sum : ℚ) / (history.length : ℚ) := by positivity
  have hrnn : 0 ≤ round ((history.sum : ℚ) / (history.length : ℚ)) := by
    rw [round_eq]
    exact Int.floor_nonneg.2 (by linarith)
  simp only [getAverageFPS, hlen, if_false, hsum]
  exact Int.toNat_of_nonneg hrnn

/-- C8 witness: a singleton history evaluates to its own (rounded) value. -/
theorem averageFPS_spec_witness :
    ([30] : List Nat) ≠ [] ∧
    (getAverageFPS [30] : ℤ) =
      round ((([30] : List Nat).sum : ℚ) / (([30] : List Nat).length : ℚ)) :=
  ⟨by decide, averageFPS_spec.2.2 [30] (by decide)⟩

/-- C9: unregisterAnimation of an absent id is a total no-op on the whole
monitor state, and unregistering twice equals unregistering once. -/
theorem unregister_idempotent :
    (∀ (s : MonitorState) (animationId : Nat), animationId ∉ s.active →
        unregisterAnimation s animationId = s) ∧
    (∀ (s : MonitorState) (animationId : Nat),
        unregisterAnimation (unregisterAnimation s animationId) animationId =
          unregisterAnimation s animationId) := by
  constructor
  · intro s animationId h
    simp [unregisterAnimation, Finset.erase_eq_of_not_mem h]
  · intro s animationId
    simp [unregisterAnimation, Finset.erase_idem]

/-- C9 witness: removing the absent id 5 from a two-element active set
leaves the state untouched. -/
theorem unregister_idempotent_witness :
    (5 : Nat) ∉ ({1, 2} : Finset Nat) ∧
    unregisterAnimation ⟨{1, 2}, initConfig⟩ 5 =
      MonitorState.mk {1, 2} initConfig :=
  ⟨by decide, unregister_idempotent.1 ⟨{1, 2}, initConfig⟩ 5 (by decide)⟩

/-- C10: registering an id already in the active set below the limit
returns true and leaves the state (hence the size) unchanged, and any
registerAnimation call leaves the size equal to the prior size or the
prior size plus one. -/
theorem reregister_no_extra_slot :
    (∀ (s : MonitorState) (animationId : Nat), animationId ∈ s.active →
        s.active.card < s.degradation.limitConcurrentAnimations →
        registerAnimation s animationId = (true, s)) ∧
    (∀ (s : MonitorState) (animationId : Nat),
        (registerAnimation s animationId).2.active.card = s.active.card ∨
        (registerAnimation s animationId).2.active.card = s.active.card + 1) := by
  constructor
  · intro s animationId hmem hlt
    have hcond : ¬ (s.degradation.limitConcurrentAnimations ≤ s.active.card) := by
      omega
    simp [registerAnimation, hcond, Finset.insert_eq_self.mpr hmem]
  · intro s animationId
    by_cases hcond : s.degradation.limitConcurrentAnimations ≤ s.active.card
    · left; simp [registerAnimation, hcond]
    · by_cases hmem : animationId ∈ s.active
      · left
        simp [registerAnimation, hcond, Finset.insert_eq_self.mpr hmem]
      · right
        simp [registerAnimation, hcond, Finset.card_insert_of_not_mem hmem]

/-- C10 witness: re-registering the already-active id 1 below the limit
returns true and changes nothing. -/
theorem reregister_no_extra_slot_witness :
    (1 : Nat) ∈ ({1} : Finset Nat) ∧
    (MonitorState.mk {1} initConfig).active.card <
      (MonitorState.mk {1} initConfig).degradation.limitConcurrentAnimations ∧
    registerAnimation ⟨{1}, initConfig⟩ 1 = (true, ⟨{1}, initConfig⟩) :=
  ⟨by decide, by decide,
    reregister_no_extra_slot.1 ⟨{1}, initConfig⟩ 1 (by decide) (by decide)⟩

/-- A refused registerAnimation call leaves the monitor state unchanged. -/
theorem register_fail_state_unchanged (s : MonitorState) (animationId : Nat)
    (h : (registerAnimation s animationId).1 = false) :
    (registerAnimation s animationId).2 = s := by
  by_cases hc : s.degradation.limitConcurrentAnimations ≤ s.active.card
  · simp [registerAnimation, hc]
  · simp [registerAnimation, hc] at h

/-- Appending to a nonempty list commutes with tail. -/
theorem tail_append_singleton {α : Type} (l : List α) (x : α) (h : l ≠ []) :
    (l ++ [x]).tail = l.tail ++ [x] := by
  cases l with
  | nil => exact absurd rfl h
  | cons y ys => rfl

/-- C3: with at least 5 retained samples, one transition evaluation maps
the tier through the ordered rule on the rounded mean m of the whole
history (m<30 to low from anywhere; else m<50 demotes exactly high to
medium; else m>=58 promotes to high; else unchanged), the policy
recompute fires exactly when the tier actually changes, and a mean in
[50, 58) with tier already medium produces no transition. -/
theorem degradation_transition_rule (history : List Nat) (tier : Tier)
    (hlen : 5 ≤ history.length) :
    ((checkPerformanceDegradation history tier).1 =
      (if getAverageFPS history < 30 then Tier.low
       else if getAverageFPS history < 50 then
         (if tier = Tier.high then Tier.medium else tier)
       else if 58 ≤ getAverageFPS history then Tier.high
       else tier)) ∧
    ((checkPerformanceDegradation history tier).2 = true ↔
      (checkPerformanceDegradation history tier).1 ≠ tier) ∧
    (50 ≤ getAverageFPS history → getAverageFPS history < 58 →
      tier = Tier.medium →
      checkPerformanceDegradation history tier = (tier, false)) := by
  have hl : (5 ≤ history.length) = True := eq_true hlen
  refine ⟨?_, ?_, ?_⟩
  · cases tier <;>
      (simp only [checkPerformanceDegradation, hl, and_true]
       split_ifs <;> simp_all)
  · cases tier <;>
      (simp only [checkPerformanceDegradation, hl, and_true]
       split_ifs <;> simp_all)
  · intro hm1 hm2 htier
    subst htier
    have h1 : ¬ (getAverageFPS history < 30) := by omega
    have h2 : ¬ (getAverageFPS history < 50) := by omega
    have h3 : ¬ (58 ≤ getAverageFPS history) := by omega
    simp [checkPerformanceDegradation, hl, h1, h2, h3]

/-- C3 witness: the history [60,58,59,60,61] has mean 59.6, rounded 60,
so from tier medium one evaluation promotes to high. -/
theorem degradation_transition_rule_witness :
    5 ≤ ([60, 58, 59, 60, 61] : List Nat).length ∧
    (checkPerformanceDegradation [60, 58, 59, 60, 61] Tier.medium).1 =
      Tier.high := by
  refine ⟨by decide, ?_⟩
  have havg : getAverageFPS [60, 58, 59, 60, 61] = 60 := by
    have hr : (round ((298 : ℚ) / 5)).toNat = 60 := by
      rw [round_eq]
      norm_num
      rfl
    simpa [getAverageFPS] using hr
  have h :=
    (degradation_transition_rule [60, 58, 59, 60, 61] Tier.medium (by decide)).1
  rw [h, havg]
  decide

/-- C5 counterexample: register ids 1 and 2 under the initial limit 3,
then recompute the policy with reducedMotion set (limit becomes 1): the
reached state has 2 active tickets but limit 1, violating the claimed
invariant that every reachable state satisfies |active| <= limit. -/
theorem admission_invariant_counterexample :
    Reachable
      (applyPolicy (registerAnimation (registerAnimation initState 1).2 2).2
        Tier.high true) ∧
    (applyPolicy (registerAnimation (registerAnimation initState 1).2 2).2
        Tier.high true).degradation.limitConcurrentAnimations <
      (applyPolicy (registerAnimation (registerAnimation initState 1).2 2).2
        Tier.high true).active.card := by
  constructor
  · exact Relation.ReflTransGen.tail
      (Relation.ReflTransGen.tail
        (Relation.ReflTransGen.tail Relation.ReflTransGen.refl
          (Step.admission (AdmissionStep.register initState 1)))
        (Step.admission
          (AdmissionStep.register (registerAnimation initState 1).2 2)))
      (Step.policy (registerAnimation (registerAnimation initState 1).2 2).2
        Tier.high true)
  · decide

/-- C5 (amended): registerAnimation admits exactly when |active| < limit,
a refused call leaves the state unchanged, no register call pushes the
count above max(limit, prior count), a policy recompute never touches the
active set (no eviction on shrink), and every admission step (register,
unregister, pause) preserves |active| <= limit — so the invariant
0 <= |active| <= limit can only be broken by a limit shrink, after which
no admission succeeds until the count falls below the new limit. -/
theorem admission_invariant_amended :
    (∀ (s : MonitorState) (animationId : Nat),
        ((registerAnimation s animationId).1 = true ↔
          s.active.card < s.degradation.limitConcurrentAnimations)) ∧
    (∀ (s : MonitorState) (animationId : Nat),
        (registerAnimation s animationId).1 = false →
          (registerAnimation s animationId).2 = s) ∧
    (∀ (s : MonitorState) (animationId : Nat),
        (registerAnimation s animationId).2.active.card ≤
          max s.degradation.limitConcurrentAnimations s.active.card) ∧
    (∀ (s : MonitorState) (tier : Tier) (isReducedMotion : Bool),
        (applyPolicy s tier isReducedMotion).active = s.active) ∧
    (∀ (s s' : MonitorState), AdmissionStep s s' →
        s.active.card ≤ s.degradation.limitConcurrentAnimations →
        s'.active.card ≤ s'.degradation.limitConcurrentAnimations) := by
  refine ⟨?_, register_fail_state_unchanged, ?_, fun s tier rm => rfl, ?_⟩
  · intro s animationId
    unfold registerAnimation
    split_ifs with hc
    · simp only [Bool.false_eq_true, false_iff, not_lt]
      exact hc
    · simp only [true_iff]
      omega
  · intro s animationId
    by_cases hc : s.degradation.limitConcurrentAnimations ≤ s.active.card
    · simp [registerAnimation, hc]
    · simp only [registerAnimation, hc, if_false]
      calc (insert animationId s.active).card
          ≤ s.active.card + 1 := Finset.card_insert_le _ _
        _ ≤ s.degradation.limitConcurrentAnimations := by omega
        _ ≤ max s.degradation.limitConcurrentAnimations s.active.card :=
            le_max_left _ _
  · intro s s' hstep hinv
    cases hstep with
    | register animationId =>
        by_cases hc : s.degradation.limitConcurrentAnimations ≤ s.active.card
        · simpa [registerAnimation, hc] using hinv
        · have hins := Finset.card_insert_le animationId s.active
          simp only [registerAnimation, hc, if_false]
          omega
    | unregister animationId =>
        exact le_trans (Finset.card_erase_le) hinv
    | pause =>
        simp [pauseMonitoring]

/-- C5 amended witness: the admission-step invariant applied to the very
first registration from the initial state. -/
theorem admission_invariant_amended_witness :
    (registerAnimation initState 1).2.active.card ≤
      (registerAnimation initState 1).2.degradation.limitConcurrentAnimations :=
  admission_invariant_amended.2.2.2.2 initState (registerAnimation initState 1).2
    (AdmissionStep.register initState 1) (by decide)

/-- C6: both sample histories are bounded FIFO buffers: an fps append
keeps at most 30 samples and a long-task record keeps at most 10, the
oldest entry being shifted off on overflow; a below-threshold task is not
recorded at all, and delivering an 11th over-threshold task leaves
exactly the 10 most recent records. -/
theorem fifo_history_bounds (history : List Nat) (fps : Nat)
    (longTasks : List LongTaskRecord) (entry : LongTaskRecord)
    (hh : history.length ≤ 30) (ht : longTasks.length ≤ 10) :
    (pushFPSSample history fps).length ≤ 30 ∧
    (history.length < 30 → pushFPSSample history fps = history ++ [fps]) ∧
    (history.length = 30 →
      pushFPSSample history fps = history.tail ++ [fps]) ∧
    (entry.duration ≤ 50 → recordLongTask longTasks entry = longTasks) ∧
    (recordLongTask longTasks entry).length ≤ 10 ∧
    (longTasks.length < 10 → 50 < entry.duration →
      recordLongTask longTasks entry = longTasks ++ [entry]) ∧
    (longTasks.length = 10 → 50 < entry.duration →
      recordLongTask longTasks entry = longTasks.tail ++ [entry] ∧
      (recordLongTask longTasks entry).length = 10) := by
  have hlenF : (history ++ [fps]).length = history.length + 1 := by simp
  have hlenT : (longTasks ++ [entry]).length = longTasks.length + 1 := by simp
  refine ⟨?_, ?_, ?_, ?_, ?_, ?_, ?_⟩
  · simp only [pushFPSSample]
    split_ifs with hc
    · rw [List.length_tail, hlenF]
      omega
    · rw [hlenF] at hc
      rw [hlenF]
      omega
  · intro hlt
    have hc : ¬ (30 < (history ++ [fps]).length) := by
      rw [hlenF]
      omega
    simp only [pushFPSSample, if_neg hc]
  · intro heq
    have hne : history ≠ [] := by
      intro h0
      rw [h0] at heq
      simp at heq
    have hc : 30 < (history ++ [fps]).length := by
      rw [hlenF]
      omega
    simp only [pushFPSSample, if_pos hc]
    exact tail_append_singleton history fps hne
  · intro hle
    have hc : ¬ (entry.duration > 50) := not_lt.mpr hle
    simp only [recordLongTask, if_neg hc]
  · by_cases hd : entry.duration > 50
    · simp only [recordLongTask, if_pos hd]
      split_ifs with hc
      · rw [List.length_tail, hlenT]
        omega
      · rw [hlenT] at hc
        rw [hlenT]
        omega
    · simp only [recordLongTask, if_neg hd]
      exact ht
  · intro hlt hd
    have hc : ¬ (10 < (longTasks ++ [entry]).length) := by
      rw [hlenT]
      omega
    simp only [recordLongTask, if_pos hd, if_neg hc]
  · intro heq hd
    have hne : longTasks ≠ [] := by
      intro h0
      rw [h0] at heq
      simp at heq
    have hc : 10 < (longTasks ++ [entry]).length := by
      rw [hlenT]
      omega
    constructor
    · simp only [recordLongTask, if_pos hd, if_pos hc]
      exact tail_append_singleton longTasks entry hne
    · simp only [recordLongTask, if_pos hd, if_pos hc]
      rw [List.length_tail, hlenT]
      omega

/-- C6 witness: a full 30-sample fps history and the 11th over-threshold
long task, each evicting exactly the oldest entry. -/
theorem fifo_history_bounds_witness :
    (List.replicate 30 (0 : Nat)).length ≤ 30 ∧
    (List.replicate 10 (LongTaskRecord.mk 60 0 0)).length ≤ 10 ∧
    pushFPSSample (List.replicate 30 (0 : Nat)) 7 =
      (List.replicate 30 (0 : Nat)).tail ++ [7] ∧
    recordLongTask (List.replicate 10 (LongTaskRecord.mk 60 0 0))
        (LongTaskRecord.mk 80 5 5) =
      (List.replicate 10 (LongTaskRecord.mk 60 0 0)).tail ++
        [LongTaskRecord.mk 80 5 5] := by
  refine ⟨by decide, by decide, ?_, ?_⟩
  · exact (fifo_history_bounds (List.replicate 30 (0 : Nat)) 7
      (List.replicate 10 (LongTaskRecord.mk 60 0 0)) (LongTaskRecord.mk 80 5 5)
      (by decide) (by decide)).2.2.1 (by decide)
  · exact ((fifo_history_bounds (List.replicate 30 (0 : Nat)) 7
      (List.replicate 10 (LongTaskRecord.mk 60 0 0)) (LongTaskRecord.mk 80 5 5)
      (by decide) (by decide)).2.2.2.2.2.2 (by decide) (by norm_num)).1

/-- C7: when the global should-animate predicate is false (reducedMotion
or low tier) or the supplied ticket is refused by registerAnimation,
animate delivers callback(1) exactly once, returns a no-op cancel handle,
and leaves the monitor state (in particular the active set) unchanged. -/
theorem animate_immediate_path (tier : Tier) (isReducedMotion : Bool)
    (s : MonitorState) (ticket : Option Nat)
    (hcond : shouldAnimate tier isReducedMotion = false ∨
      ∃ i, ticket = some i ∧ (registerAnimation s i).1 = false) :
    animate tier isReducedMotion s ticket = ([1], true, s) := by
  rcases hcond with h | ⟨i, hi, hreg⟩
  · simp [animate, h]
  · subst hi
    by_cases hsa : shouldAnimate tier isReducedMotion = false
    · simp [animate, hsa]
    · simp [animate, hsa, hreg, register_fail_state_unchanged s i hreg]

/-- C7 witness: on a low-tier device (should-animate false) animate
jumps straight to completion without touching the state. -/
theorem animate_immediate_path_witness :
    (shouldAnimate Tier.low false = false ∨
      ∃ i, (none : Option Nat) = some i ∧
        (registerAnimation initState i).1 = false) ∧
    animate Tier.low false initState none = ([1], true, initState) :=
  ⟨Or.inl (by decide),
    animate_immediate_path Tier.low false initState none (Or.inl (by decide))⟩
